import Mathlib

/-!
Verification of the vpath_formatter conversion scripts.

Shallow embedding of the five Python converter scripts:
  * `src/convert_brake_to_polarion_headings.py`  (PolarionHeadingConverter)
  * `src/archive_scripts/convert_brake_requirements_to_polarion.py` (BrakeRequirementsConverter, synthetic headings)
  * `src/archive_scripts/convert_brake_requirements_to_polarion_no_headings.py` (BrakeRequirementsConverter, existing headings)
  * `src/archive_scripts/convert_brake_to_polarion_exact.py` (PolarionExactConverter)
  * `src/archive_scripts/convert_brake_to_polarion_individual.py` (PolarionIndividualConverter)

Python dictionaries appearing as static lookup tables are embedded as
association lists in source order (Python dicts iterate in insertion order);
`dict.get(k, d)` becomes `lookupD`, `k in dict` becomes `containsKey`.
JSON objects are embedded as structures; a key that a script accesses via
`.get`/membership tests is an `Option` field, a key accessed by plain
subscript (whose absence would raise `KeyError`) is a plain field unless a
claim is about that very failure mode (the archive converter's document
keys, see `ArchiveDoc`).  File writes and `sys.exit(1)` are modelled by
`Except`: an `Except.error` result means the script exits with status 1
before writing its output file.
-/

/-- Generic: enumerate a list starting at `n`, mirroring Python `enumerate(l, n)`. -/
def enumF {α : Type} (n : Nat) : List α → List (Nat × α)
  | [] => []
  | x :: xs => (n, x) :: enumF (n + 1) xs

/-- Generic: concatenation of the images of `f`, the "flat ordered sequence" of a traversal. -/
def flatSeq {α β : Type} (f : α → List β) : List α → List β
  | [] => []
  | x :: xs => f x ++ flatSeq f xs

/-- A `foldl` that appends `f x` at every step is the accumulator followed by `flatSeq f`. -/
theorem foldl_flat {α β : Type} (g : List β → α → List β) (f : α → List β)
    (h : ∀ acc x, g acc x = acc ++ f x) :
    ∀ (l : List α) (acc : List β), List.foldl g acc l = acc ++ flatSeq f l := by
  intro l
  induction l with
  | nil => intro acc; simp [flatSeq]
  | cons x xs ih =>
    intro acc
    simp only [List.foldl_cons, flatSeq, h, ih, List.append_assoc]

/-- Length of a `flatSeq` is the sum of the lengths of the pieces. -/
theorem flatSeq_length {α β : Type} (f : α → List β) :
    ∀ l : List α, (flatSeq f l).length = (l.map (fun x => (f x).length)).sum := by
  intro l
  induction l with
  | nil => rfl
  | cons x xs ih => simp [flatSeq, ih]

/-- Membership in a `flatSeq` comes from membership in one of the pieces. -/
theorem mem_flatSeq {α β : Type} (f : α → List β) (b : β) :
    ∀ l : List α, b ∈ flatSeq f l ↔ ∃ x ∈ l, b ∈ f x := by
  intro l
  induction l with
  | nil => simp [flatSeq]
  | cons x xs ih => simp [flatSeq, ih]

/-- Python `dict.get(k, d)` over an association list in insertion order. -/
def lookupD (l : List (String × String)) (k d : String) : String :=
  match l with
  | [] => d
  | p :: t => if k = p.1 then p.2 else lookupD t k d

/-- Python `dict.get(k)` / `dict[k]` lookup returning an optional value. -/
def lookupOpt {β : Type} (l : List (String × β)) (k : String) : Option β :=
  match l with
  | [] => none
  | p :: t => if k = p.1 then some p.2 else lookupOpt t k

/-- Python `k in dict` over an association list. -/
def containsKey {β : Type} (l : List (String × β)) (k : String) : Bool :=
  l.any (fun p => decide (p.1 = k))

/-- Helper for Python's `needle in haystack`: list-of-characters prefix test. -/
def isPrefixB : List Char → List Char → Bool
  | [], _ => true
  | _ :: _, [] => false
  | c :: cs, d :: ds => if c = d then isPrefixB cs ds else false

/-- Helper for Python's `needle in haystack` over lists of characters. -/
def containsSub (needle : List Char) : List Char → Bool
  | [] => isPrefixB needle []
  | c :: rest => isPrefixB needle (c :: rest) || containsSub needle rest

/-- Python's substring test `needle in hay` on strings. -/
def isSubstrB (needle hay : String) : Bool :=
  containsSub needle.data hay.data

/-- Character-list part of `stripOutline`; see `stripOutline`. -/
def stripOutlineAux (l : List Char) : List Char :=
  let d1 := l.takeWhile (fun c => c.isDigit)
  if d1.isEmpty then l
  else
    match l.dropWhile (fun c => c.isDigit) with
    | '.' :: r2 =>
      match r2.dropWhile (fun c => c.isDigit) with
      | c :: r3 => if c.isWhitespace then (c :: r3).dropWhile (fun x => x.isWhitespace) else l
      | [] => l
    | c :: r1 => if c.isWhitespace then (c :: r1).dropWhile (fun x => x.isWhitespace) else l
    | [] => l

/-- Embedding of the Python outline-number strip
`re.sub(r'^\d+\.?\d*\s+', '', s)` used by the individual and no-headings
converters: removes a leading `digits [. digits] whitespace+` prefix when
present, otherwise returns the string unchanged. -/
def stripOutline (s : String) : String :=
  ⟨stripOutlineAux s.data⟩

/-- Python `str.lower()` (character-wise ASCII lowercasing). -/
def toLowerS (s : String) : String :=
  ⟨s.data.map Char.toLower⟩

/-- The input tree: one work item (requirement) of the structured brake document. -/
structure Requirement where
  id : String
  title : String
  description : String
  category : String
  priority : String
deriving DecidableEq, Repr

/-- The input tree: a subchapter (`heading`, optional `heading_id`, optional `workitems`). -/
structure Subchapter where
  heading : String
  heading_id : Option String
  workitems : Option (List Requirement)
deriving DecidableEq, Repr

/-- The input tree: a chapter with its direct work items and subchapters. -/
structure Chapter where
  heading : String
  heading_id : Option String
  description : Option String
  workitems : Option (List Requirement)
  subchapters : Option (List Subchapter)
deriving DecidableEq, Repr

/-- The input tree: the `document` object; the traversal converters only read `chapters`. -/
structure Document where
  chapters : Option (List Chapter)
deriving DecidableEq, Repr

/-- `document.get("chapters", [])` after `brake_data.get("document", {})`. -/
def chaptersOf (brake : Option Document) : List Chapter :=
  match brake with
  | none => []
  | some d => d.chapters.getD []

/-- A `links` array entry of the Polarion output. -/
structure Link where
  target_id : String
  role : String
  description : String
deriving DecidableEq, Repr

/-- A `description` object (`{"type": "text/html", "value": ...}`) of the Polarion output. -/
structure Description where
  dtype : String
  value : String
deriving DecidableEq, Repr

/-! ## Archive converter: `convert_brake_requirements_to_polarion.py` -/

/-- The archive converter's fixed `self.document_id`. -/
def archiveDocumentId : String := "Python/_default/Functional Concept - Brake System"

/-- `BrakeRequirementsConverter.map_priority` (archive converter, lines 50-58). -/
def mapPriorityA (priority : String) : String :=
  lookupD [("Critical", "100.0"), ("High", "90.0"), ("Medium", "50.0"), ("Low", "30.0")]
    priority "50.0"

/-- `BrakeRequirementsConverter.map_severity` (archive converter, lines 60-71). -/
def mapSeverityA (category priority : String) : String :=
  if category = "Safety" ∧ priority = "Critical" then "safety_critical"
  else if priority = "Critical" then "must_have"
  else if priority = "High" then "should_have"
  else if priority = "Medium" then "could_have"
  else "nice_to_have"

/-- `BrakeRequirementsConverter.map_status` (archive converter, lines 73-85). -/
def mapStatusA (category : String) : String :=
  lookupD [("Regulatory", "approved"), ("Safety", "in_review"), ("Functional", "draft"),
    ("Performance", "draft"), ("Interface", "draft"), ("Environmental", "draft"),
    ("Maintenance", "draft"), ("Testing", "draft")] category "draft"

/-- The `custom_fields` object of an archive-converter requirement work item. -/
structure CustomFields where
  requirement_id : String
  category : String
  original_priority : String
deriving DecidableEq, Repr

/-- A work item emitted by the archive and no-headings converters.  Keys that a
heading item does not carry (`severity`, `categories`, `custom_fields`,
`outlineNumber`, `links`) are `Option` fields, `none` meaning the key is absent. -/
structure AWorkitem where
  id : String
  type : String
  title : String
  description : Description
  status : String
  severity : Option String
  priority : String
  categories : Option (List String)
  custom_fields : Option CustomFields
  moduleId : String
  outlineNumber : Option String
  links : Option (List Link)
deriving DecidableEq, Repr

/-- `BrakeRequirementsConverter.create_requirement_workitem` (archive converter, lines 120-157). -/
def createRequirementWorkitemA (r : Requirement) (parentHeadingId outlineNumber : String) :
    AWorkitem :=
  { id := "Python/" ++ r.id
    type := "requirement"
    title := r.title
    description := ⟨"text/html", "<p>" ++ r.description ++ "</p>"⟩
    status := mapStatusA r.category
    severity := some (mapSeverityA r.category r.priority)
    priority := mapPriorityA r.priority
    categories := some [toLowerS r.category]
    custom_fields := some ⟨r.id, r.category, r.priority⟩
    moduleId := archiveDocumentId
    outlineNumber := some outlineNumber
    links := some [⟨parentHeadingId, "has_parent", "Links to chapter heading"⟩] }

/-- `BrakeRequirementsConverter.process_subchapter` (archive converter, lines 213-254):
takes the current heading counter, returns the emitted items and the new counter. -/
def processSubchapterA (c chapterNum subNum : Nat) (parentHeadingId : String)
    (sub : Subchapter) : List AWorkitem × Nat :=
  let c1 := c + 1
  let shid := "Python/BR-HEAD-" ++ toString c1
  let subHeading : AWorkitem :=
    { id := shid
      type := "heading"
      title := sub.heading
      description := ⟨"text/html", "<h3>" ++ sub.heading ++ "</h3>"⟩
      status := "approved"
      severity := none
      priority := "95.0"
      categories := none
      custom_fields := none
      moduleId := archiveDocumentId
      outlineNumber := some (toString chapterNum ++ "." ++ toString subNum)
      links := some [⟨parentHeadingId, "has_parent", "Links to parent chapter"⟩] }
  (subHeading :: (enumF 1 (sub.workitems.getD [])).map
      (fun p => createRequirementWorkitemA p.2 shid
        (toString chapterNum ++ "." ++ toString subNum ++ "." ++ toString p.1)), c1)

/-- The stateful extend-loop shape `for x in l: items, c = F(c, x); acc += items`
shared by the archive converter's chapter and subchapter loops. -/
def statefulAppend {α β : Type} (F : Nat → α → List β × Nat) (st : List β × Nat)
    (l : List α) : List β × Nat :=
  l.foldl (fun s x => (s.1 ++ (F s.2 x).1, (F s.2 x).2)) st

/-- `BrakeRequirementsConverter.process_chapter` (archive converter, lines 159-211). -/
def processChapterA (c chapterNum : Nat) (parentId : Option String) (ch : Chapter) :
    List AWorkitem × Nat :=
  let c1 := c + 1
  let chid := "Python/BR-HEAD-" ++ toString c1
  let chHeading : AWorkitem :=
    { id := chid
      type := "heading"
      title := ch.heading
      description := ⟨"text/html",
        "<h2>" ++ ch.heading ++ "</h2><p>" ++ ch.description.getD "" ++ "</p>"⟩
      status := "approved"
      severity := none
      priority := "100.0"
      categories := none
      custom_fields := none
      moduleId := archiveDocumentId
      outlineNumber := some (toString chapterNum)
      links := parentId.map (fun pid => [⟨pid, "has_parent", "Links to document root"⟩]) }
  let reqItems := (enumF 1 (ch.workitems.getD [])).map
    (fun p => createRequirementWorkitemA p.2 chid (toString chapterNum ++ "." ++ toString p.1))
  let sres := statefulAppend (fun c2 q => processSubchapterA c2 chapterNum q.1 chid q.2)
    ([], c1) (enumF 1 (ch.subchapters.getD []))
  (chHeading :: reqItems ++ sres.1, sres.2)

/-- The archive converter's `document` object: every key read by `validate_input`
or `convert` is optional, since those two functions are exactly about presence of
document keys.  `chapters` can also be present but not a list. -/
inductive ChaptersField where
  | list (cs : List Chapter)
  | notList
deriving DecidableEq, Repr

/-- The archive converter's input document with optional keys; see `ChaptersField`. -/
structure ArchiveDoc where
  id : Option String
  title : Option String
  project : Option String
  space : Option String
  version : Option String
  created : Option String
  chapters : Option ChaptersField
deriving DecidableEq, Repr

/-- Validation outcome of `validate_input`: the reported error, naming the
missing key (the embedding records the key the printed message names). -/
inductive VError where
  | missingDocument
  | missingKey (k : String)
  | chaptersNotList
deriving DecidableEq, Repr

/-- `BrakeRequirementsConverter.validate_input` (archive converter, lines 277-294):
`none` means the input is valid; `some e` is the reported error. -/
def validateInputA : Option ArchiveDoc → Option VError
  | none => some .missingDocument
  | some doc =>
    if doc.id.isNone then some (.missingKey "id")
    else if doc.title.isNone then some (.missingKey "title")
    else if doc.project.isNone then some (.missingKey "project")
    else if doc.space.isNone then some (.missingKey "space")
    else
      match doc.chapters with
      | none => some (.missingKey "chapters")
      | some .notList => some .chaptersNotList
      | some (.list _) => none

/-- The archive converter's full output JSON (document block, work items, metadata). -/
structure ArchiveOutput where
  docId : String
  docTitle : String
  docType : String
  docProject : String
  docSpace : String
  docVersion : String
  docCreated : String
  work_items : List AWorkitem
  totalItems : Nat
  totalRequirements : Nat
  totalHeadings : Nat
  conversionTimestamp : String
deriving DecidableEq, Repr

/-- Body of `BrakeRequirementsConverter.convert` after validation (lines 312-361):
each plain `document[key]` subscript is a `match` whose `none` branch raises the
`KeyError` for that key, in the order the source reads the keys. -/
def convertBodyA (ts : String) (doc : ArchiveDoc) : Except String ArchiveOutput :=
  match doc.title with
  | none => .error "title"
  | some title =>
    match doc.version with
    | none => .error "version"
    | some version =>
      match doc.created with
      | none => .error "created"
      | some created =>
        let rootId := "Python/BR-HEAD-" ++ toString (1000 + 1)
        let rootHeading : AWorkitem :=
          { id := rootId
            type := "heading"
            title := title
            description := ⟨"text/html",
              "<h1>" ++ title ++ "</h1><p>Version: " ++ version ++ "</p><p>Created: "
                ++ created ++ "</p>"⟩
            status := "approved"
            severity := none
            priority := "100.0"
            categories := none
            custom_fields := none
            moduleId := archiveDocumentId
            outlineNumber := some "1"
            links := none }
        match doc.chapters with
        | none => .error "chapters"
        | some .notList => .error "chapters"
        | some (.list cs) =>
          let cres := statefulAppend
            (fun c p => processChapterA c (p.1 + 1) (some rootId) p.2) ([], 1001)
            (enumF 1 cs)
          let ws := rootHeading :: cres.1
          match doc.project with
          | none => .error "project"
          | some project =>
            match doc.space with
            | none => .error "space"
            | some space =>
              .ok
                { docId := archiveDocumentId
                  docTitle := title
                  docType := "Functional Concept"
                  docProject := project
                  docSpace := space
                  docVersion := version
                  docCreated := ts
                  work_items := ws
                  totalItems := ws.length
                  totalRequirements := ws.countP (fun w => decide (w.type = "requirement"))
                  totalHeadings := ws.countP (fun w => decide (w.type = "heading"))
                  conversionTimestamp := ts }

/-- The archive converter's exit outcome: a validation failure (which reports
the missing key) or a `KeyError` caught by the generic handler; both exit 1
without writing the output file. -/
inductive ConvErr where
  | validation (e : VError)
  | keyError (k : String)
deriving DecidableEq, Repr

/-- `BrakeRequirementsConverter.convert` (archive converter, lines 296-366). -/
def convertA (ts : String) (input : Option ArchiveDoc) : Except ConvErr ArchiveOutput :=
  match validateInputA input with
  | some e => .error (.validation e)
  | none =>
    match input with
    | none => .error (.validation .missingDocument)
    | some doc =>
      match convertBodyA ts doc with
      | .ok out => .ok out
      | .error k => .error (.keyError k)

/-! ## No-headings converter: `convert_brake_requirements_to_polarion_no_headings.py` -/

/-- The no-headings converter's default `self.heading_ids` table (lines 41-76),
in source (insertion) order. -/
def headingIdsNH : List (String × String) :=
  [("root", "Python/FCTS-ROOT"),
   ("1. Introduction and Scope", "Python/FCTS-INTRO"),
   ("2. System Overview and Architecture", "Python/FCTS-ARCH"),
   ("3. Functional Requirements", "Python/FCTS-FUNC"),
   ("3.1 Primary Brake Functions", "Python/FCTS-FUNC-PRIM"),
   ("3.2 Advanced Brake Functions", "Python/FCTS-FUNC-ADV"),
   ("4. Performance Requirements", "Python/FCTS-PERF"),
   ("4.1 Stopping Performance", "Python/FCTS-PERF-STOP"),
   ("4.2 Response Time Performance", "Python/FCTS-PERF-RESP"),
   ("4.3 Durability Performance", "Python/FCTS-PERF-DUR"),
   ("5. Safety Requirements", "Python/FCTS-SAFE"),
   ("5.1 System Redundancy", "Python/FCTS-SAFE-RED"),
   ("5.2 Monitoring and Warnings", "Python/FCTS-SAFE-MON"),
   ("6. Interface Requirements", "Python/FCTS-INTF"),
   ("6.1 System Communication", "Python/FCTS-INTF-COMM"),
   ("6.2 Control System Integration", "Python/FCTS-INTF-CTRL"),
   ("6.3 Sensor Integration", "Python/FCTS-INTF-SENS"),
   ("7. Environmental Requirements", "Python/FCTS-ENV"),
   ("7.1 Temperature and Climate", "Python/FCTS-ENV-TEMP"),
   ("7.2 Corrosion and Protection", "Python/FCTS-ENV-CORR"),
   ("7.3 Mechanical Stress", "Python/FCTS-ENV-MECH"),
   ("8. Maintenance and Serviceability", "Python/FCTS-MAINT"),
   ("8.1 Wear Monitoring", "Python/FCTS-MAINT-WEAR"),
   ("8.2 Service Intervals", "Python/FCTS-MAINT-SERV"),
   ("8.3 Diagnostics and Accessibility", "Python/FCTS-MAINT-DIAG"),
   ("9. Regulatory Compliance", "Python/FCTS-REG"),
   ("9.1 International Standards", "Python/FCTS-REG-INT"),
   ("9.2 Safety Standards", "Python/FCTS-REG-SAFE"),
   ("9.3 Environmental Standards", "Python/FCTS-REG-ENV"),
   ("10. Verification and Validation", "Python/FCTS-TEST"),
   ("10.1 Performance Testing", "Python/FCTS-TEST-PERF"),
   ("10.2 Durability Testing", "Python/FCTS-TEST-DUR"),
   ("10.3 Environmental Testing", "Python/FCTS-TEST-ENV"),
   ("10.4 System Testing", "Python/FCTS-TEST-SYS")]

/-- The fallback loop of `get_heading_id`: first table entry whose key contains
the cleaned title as a substring. -/
def firstKeyMatch (cleaned : String) : List (String × String) → Option String
  | [] => none
  | p :: t => if isSubstrB cleaned p.1 then some p.2 else firstKeyMatch cleaned t

/-- `BrakeRequirementsConverter.get_heading_id` (no-headings converter, lines 97-112). -/
def getHeadingId (headingTitle : String) : String :=
  match lookupOpt headingIdsNH headingTitle with
  | some v => v
  | none =>
    match firstKeyMatch (stripOutline headingTitle) headingIdsNH with
    | some v => v
    | none => "Python/FCTS-UNKNOWN"

/-- `BrakeRequirementsConverter.map_priority` (no-headings converter, lines 114-122). -/
def mapPriorityNH (priority : String) : String :=
  lookupD [("Critical", "100.0"), ("High", "90.0"), ("Medium", "50.0"), ("Low", "30.0")]
    priority "50.0"

/-- `BrakeRequirementsConverter.map_severity` (no-headings converter, lines 124-135). -/
def mapSeverityNH (category priority : String) : String :=
  if category = "Safety" ∧ priority = "Critical" then "safety_critical"
  else if priority = "Critical" then "must_have"
  else if priority = "High" then "should_have"
  else if priority = "Medium" then "could_have"
  else "nice_to_have"

/-- `BrakeRequirementsConverter.map_status` (no-headings converter, lines 137-149). -/
def mapStatusNH (category : String) : String :=
  lookupD [("Regulatory", "approved"), ("Safety", "in_review"), ("Functional", "draft"),
    ("Performance", "draft"), ("Interface", "draft"), ("Environmental", "draft"),
    ("Maintenance", "draft"), ("Testing", "draft")] category "draft"

/-- `BrakeRequirementsConverter.create_requirement_workitem` (no-headings converter,
lines 151-190): the parent link target is looked up from the heading title. -/
def createRequirementWorkitemNH (r : Requirement) (parentHeadingTitle outlineNumber : String) :
    AWorkitem :=
  let parentHeadingId := getHeadingId parentHeadingTitle
  { id := "Python/" ++ r.id
    type := "requirement"
    title := r.title
    description := ⟨"text/html", "<p>" ++ r.description ++ "</p>"⟩
    status := mapStatusNH r.category
    severity := some (mapSeverityNH r.category r.priority)
    priority := mapPriorityNH r.priority
    categories := some [toLowerS r.category]
    custom_fields := some ⟨r.id, r.category, r.priority⟩
    moduleId := archiveDocumentId
    outlineNumber := some outlineNumber
    links := some [⟨parentHeadingId, "has_parent", "Links to " ++ parentHeadingTitle⟩] }

/-- `BrakeRequirementsConverter.process_subchapter` (no-headings converter, lines 214-225). -/
def processSubchapterNH (chapterNum subNum : Nat) (sub : Subchapter) : List AWorkitem :=
  (enumF 1 (sub.workitems.getD [])).map
    (fun p => createRequirementWorkitemNH p.2 sub.heading
      (toString chapterNum ++ "." ++ toString subNum ++ "." ++ toString p.1))

/-- `BrakeRequirementsConverter.process_chapter` (no-headings converter, lines 192-212):
direct chapter work items first, then each subchapter's work items. -/
def processChapterNH (chapterNum : Nat) (ch : Chapter) : List AWorkitem :=
  (enumF 1 (ch.workitems.getD [])).map
      (fun p => createRequirementWorkitemNH p.2 ch.heading
        (toString chapterNum ++ "." ++ toString p.1))
    ++ flatSeq (fun q => processSubchapterNH chapterNum q.1 q.2)
        (enumF 1 (ch.subchapters.getD []))

/-- The chapter loop of the no-headings `convert` (lines 300-301): successive
`work_items.extend(process_chapter(chapter, chapter_num))` over `enumerate(chapters, 1)`. -/
def workItemsNH (cs : List Chapter) : List AWorkitem :=
  (enumF 1 cs).foldl (fun acc p => acc ++ processChapterNH p.1 p.2) []

/-! ## Headings converter: `convert_brake_to_polarion_headings.py` -/

/-- The inner `work_item` object of the bundle format used by the headings,
individual and exact converters. -/
structure WorkItemMain where
  type : String
  title : String
  description : Description
  status : String
  severity : String
  priority : String
  moduleId : String
deriving DecidableEq, Repr

/-- One output record of the headings and individual converters:
`{"work_item": ..., "links": [...], "children": []}`. -/
structure OutItem where
  work_item : WorkItemMain
  links : List Link
  children : List WorkItemMain
deriving DecidableEq, Repr

/-- `PolarionHeadingConverter.create_workitem_format` (lines 46-103); `ts` is
`self.timestamp` and `docId` is `self.document_id`. -/
def createWorkitemFormatH (ts docId : String) (r : Requirement)
    (parentHeadingId parentHeadingTitle : String) : OutItem :=
  let priorityVal :=
    lookupD [("Critical", "high"), ("High", "high"), ("Medium", "medium"), ("Low", "low")]
      r.priority "medium"
  let severityVal :=
    lookupD [("Safety", if r.priority = "Critical" then "safety_critical" else "must_have"),
      ("Functional", "must_have"), ("Performance", "must_have"), ("Interface", "should_have"),
      ("Environmental", "should_have"), ("Maintenance", "could_have"),
      ("Regulatory", "must_have"), ("Testing", "should_have")] r.category "must_have"
  { work_item :=
      { type := "requirement"
        title := r.title ++ " " ++ ts
        description := ⟨"text/html", "<p>" ++ r.description ++ "</p>"⟩
        status := "draft"
        severity := severityVal
        priority := priorityVal
        moduleId := docId }
    links := [⟨parentHeadingId, "has_parent", "Links to " ++ parentHeadingTitle⟩]
    children := [] }

/-- `PolarionHeadingConverter.process_requirements` (lines 105-151) with its
imperative `output_items.append` loops rendered as folds; `hmap` is the
`heading_map` (`dict.get(heading_id, heading)` becomes `(hmap hid).getD heading`). -/
def processRequirementsH (ts docId : String) (brake : Option Document)
    (hmap : String → Option String) : List OutItem :=
  (chaptersOf brake).foldl
    (fun output_items ch =>
      let chid := ch.heading_id.getD ""
      let ctitle := (hmap chid).getD ch.heading
      let afterDirect := output_items ++
        (ch.workitems.getD []).map (fun r => createWorkitemFormatH ts docId r chid ctitle)
      (ch.subchapters.getD []).foldl
        (fun acc sub =>
          let sid := sub.heading_id.getD ""
          let stitle := (hmap sid).getD sub.heading
          acc ++ (sub.workitems.getD []).map
            (fun r => createWorkitemFormatH ts docId r sid stitle))
        afterDirect)
    []

/-- The output JSON of the headings and individual converters:
work items plus a metadata block with `total_items`. -/
structure ItemsOutput where
  work_items : List OutItem
  totalItems : Nat
  documentId : String
  conversionTimestamp : String
  note : String
deriving DecidableEq, Repr

/-- The output structure built by `PolarionHeadingConverter.run` (lines 172-181). -/
def runOutputH (ts docId : String) (brake : Option Document)
    (hmap : String → Option String) : ItemsOutput :=
  let items := processRequirementsH ts docId brake hmap
  { work_items := items
    totalItems := items.length
    documentId := docId
    conversionTimestamp := ts
    note := "Each requirement links to its chapter/subchapter heading via has_parent" }

/-! ## Claim-side (spec-form) description of the headings traversal -/

/-- Claim-side form of the headings traversal of one chapter: one output work
item per direct work item (in list order), then one per work item of each
subchapter (subchapters in input order, work items in list order). -/
def chapterSpecH (ts docId : String) (hmap : String → Option String) (ch : Chapter) :
    List OutItem :=
  let chid := ch.heading_id.getD ""
  let ctitle := (hmap chid).getD ch.heading
  (ch.workitems.getD []).map (fun r => createWorkitemFormatH ts docId r chid ctitle)
    ++ flatSeq
        (fun sub =>
          let sid := sub.heading_id.getD ""
          let stitle := (hmap sid).getD sub.heading
          (sub.workitems.getD []).map (fun r => createWorkitemFormatH ts docId r sid stitle))
        (ch.subchapters.getD [])

/-- Claim-side form of the whole headings traversal: chapters in input order. -/
def flatSpecH (ts docId : String) (brake : Option Document)
    (hmap : String → Option String) : List OutItem :=
  flatSeq (chapterSpecH ts docId hmap) (chaptersOf brake)

/-- Number of work items a chapter carries (direct ones plus its subchapters'). -/
def chapterCount (ch : Chapter) : Nat :=
  (ch.workitems.getD []).length
    + ((ch.subchapters.getD []).map (fun s => (s.workitems.getD []).length)).sum

/-- Total number of work items in the input tree. -/
def totalWorkitems (cs : List Chapter) : Nat :=
  (cs.map chapterCount).sum

/-! ## Individual converter: `convert_brake_to_polarion_individual.py` -/

/-- Type and title of a pre-existing remote work item, as extracted by
`load_project_analysis` into `self.existing_workitems`. -/
structure WInfo where
  type : String
  title : String
deriving DecidableEq, Repr

/-- `PolarionIndividualConverter.extract_requirements_with_context` (lines 48-71):
each requirement with its chapter heading and optional subchapter heading. -/
def extractRequirementsWithContext (brake : Option Document) :
    List (Requirement × String × Option String) :=
  flatSeq
    (fun ch =>
      (ch.workitems.getD []).map (fun r => (r, ch.heading, none))
        ++ flatSeq
            (fun sub => (sub.workitems.getD []).map (fun r => (r, ch.heading, some sub.heading)))
            (ch.subchapters.getD []))
    (chaptersOf brake)

/-- The individual converter's `heading_map` keyword table (lines 83-128), in
source order: keyword, then preferred existing work-item IDs. -/
def headingMapI : List (String × List String) :=
  [("functional", ["Python/FCTS-9156", "Python/FCTS-9157", "Python/FCTS-9158"]),
   ("primary", ["Python/FCTS-9157"]),
   ("advanced", ["Python/FCTS-9158"]),
   ("brake function", ["Python/FCTS-9156", "Python/FCTS-9157"]),
   ("performance", ["Python/FCTS-9175", "Python/FCTS-9178"]),
   ("stopping", ["Python/FCTS-9175"]),
   ("response", ["Python/FCTS-9178"]),
   ("durability", ["Python/FCTS-9175"]),
   ("safety", ["Python/FCTS-9155"]),
   ("redundancy", ["Python/FCTS-9155"]),
   ("monitoring", ["Python/FCTS-9155"]),
   ("warning", ["Python/FCTS-9155"]),
   ("interface", ["Python/FCTS-9173", "Python/FCTS-9158"]),
   ("communication", ["Python/FCTS-9173"]),
   ("integration", ["Python/FCTS-9158", "Python/FCTS-9173"]),
   ("sensor", ["Python/FCTS-9173"]),
   ("environmental", ["Python/FCTS-9181", "Python/FCTS-9178"]),
   ("temperature", ["Python/FCTS-9181"]),
   ("corrosion", ["Python/FCTS-9181"]),
   ("maintenance", ["Python/FCTS-9167", "Python/FCTS-9168"]),
   ("service", ["Python/FCTS-9167"]),
   ("diagnostic", ["Python/FCTS-9168"]),
   ("regulatory", ["Python/FCTS-9156", "Python/FCTS-9155"]),
   ("compliance", ["Python/FCTS-9156"]),
   ("standard", ["Python/FCTS-9156"]),
   ("testing", ["Python/FCTS-9159", "Python/FCTS-9160", "Python/FCTS-9179", "Python/FCTS-9180"]),
   ("verification", ["Python/FCTS-9159", "Python/FCTS-9179"]),
   ("validation", ["Python/FCTS-9160", "Python/FCTS-9180"]),
   ("test", ["Python/FCTS-9159", "Python/FCTS-9160"])]

/-- The keyword loop of `match_heading_to_workitem` over a cleaned heading `s`:
for each table entry whose keyword is a substring of `s`, return the first
preferred ID loaded in `existing`; when a matching keyword has no loaded
preferred ID the loop moves on to the next keyword. -/
def matchLoopI (existing : List (String × WInfo)) (s : String) :
    List (String × List String) → Option String
  | [] => none
  | p :: t =>
    if isSubstrB p.1 s then
      match p.2.find? (fun wid => containsKey existing wid) with
      | some wid => some wid
      | none => matchLoopI existing s t
    else matchLoopI existing s t

/-- `PolarionIndividualConverter.match_heading_to_workitem` (lines 73-146). -/
def matchHeadingToWorkitem (existing : List (String × WInfo)) (chapter : String)
    (subchapter : Option String) : String :=
  let chapterClean := toLowerS (stripOutline chapter)
  let subchapterClean :=
    match subchapter with
    | some s => toLowerS (stripOutline s)
    | none => ""
  match (if subchapterClean ≠ "" then matchLoopI existing subchapterClean headingMapI
         else none) with
  | some wid => wid
  | none =>
    match matchLoopI existing chapterClean headingMapI with
    | some wid => wid
    | none => "Python/FCTS-9156"

/-- The fixed `test_items` list of the individual converter (line 216). -/
def testItemsI : List String :=
  ["Python/FCTS-9159", "Python/FCTS-9160", "Python/FCTS-9179", "Python/FCTS-9180"]

/-- `PolarionIndividualConverter.create_workitem_format` (lines 148-226). -/
def createWorkitemFormatI (ts docId : String) (existing : List (String × WInfo))
    (r : Requirement) (parentId : String) (chapter : String) (subchapter : Option String) :
    OutItem :=
  let priorityVal :=
    lookupD [("Critical", "high"), ("High", "high"), ("Medium", "medium"), ("Low", "low")]
      r.priority "medium"
  let severityVal :=
    lookupD [("Safety", if r.priority = "Critical" then "safety_critical" else "must_have"),
      ("Functional", "must_have"), ("Performance", "must_have"), ("Interface", "should_have"),
      ("Environmental", "should_have"), ("Maintenance", "could_have"),
      ("Regulatory", "must_have"), ("Testing", "should_have")] r.category "must_have"
  let linkDescription := "Links to " ++ subchapter.getD chapter
  let parentTitle := ((lookupOpt existing parentId).map WInfo.title).getD "parent requirement"
  let baseLinks : List Link := [⟨parentId, "has_parent", linkDescription ++ " - " ++ parentTitle⟩]
  let links :=
    if r.category = "Safety" ∧ parentId ≠ "Python/FCTS-9155" then
      baseLinks ++ [⟨"Python/FCTS-9155", "relates_to", "Related to MCP Safety Goal"⟩]
    else if r.category = "Testing" then
      match testItemsI.find? (fun tid => decide (tid ≠ parentId) && containsKey existing tid) with
      | some tid =>
        baseLinks ++ [⟨tid, "verifies",
          "Verifies " ++ ((lookupOpt existing tid).map WInfo.title).getD ""⟩]
      | none => baseLinks
    else baseLinks
  { work_item :=
      { type := "requirement"
        title := r.title ++ " " ++ ts
        description := ⟨"text/html", "<p>" ++ r.description ++ "</p>"⟩
        status := "draft"
        severity := severityVal
        priority := priorityVal
        moduleId := docId }
    links := links
    children := [] }

/-- `PolarionIndividualConverter.convert_requirements` (lines 228-250). -/
def convertRequirementsI (ts docId : String) (existing : List (String × WInfo))
    (brake : Option Document) : List OutItem :=
  (extractRequirementsWithContext brake).map
    (fun t => createWorkitemFormatI ts docId existing t.1
      (matchHeadingToWorkitem existing t.2.1 t.2.2) t.2.1 t.2.2)

/-- The output structure built by `PolarionIndividualConverter.run` (lines 277-285). -/
def runOutputI (ts docId : String) (existing : List (String × WInfo))
    (brake : Option Document) : ItemsOutput :=
  let items := convertRequirementsI ts docId existing brake
  { work_items := items
    totalItems := items.length
    documentId := docId
    conversionTimestamp := ts
    note := "Each requirement is an individual work item with parent links" }

/-! ## Exact converter: `convert_brake_to_polarion_exact.py` -/

/-- The exact converter's `mapping_rules` table (lines 57-78), in source order:
category, then (keywords, preferred existing work-item IDs). -/
def mappingRulesE : List (String × (List String × List String)) :=
  [("functional", (["mcp", "framework", "integration", "server", "composite"],
     ["Python/FCTS-9156", "Python/FCTS-9157", "Python/FCTS-9158"])),
   ("safety", (["safety", "goal", "critical"], ["Python/FCTS-9155"])),
   ("testing", (["test", "validation", "verification"],
     ["Python/FCTS-9159", "Python/FCTS-9160", "Python/FCTS-9179", "Python/FCTS-9180"])),
   ("interface", (["interface", "communication", "integration"],
     ["Python/FCTS-9158", "Python/FCTS-9173"])),
   ("performance", (["performance", "response", "efficiency"],
     ["Python/FCTS-9175", "Python/FCTS-9178"]))]

/-- The keyword loop of `map_requirement_to_parent`: for each keyword of the
rule that occurs in the lowercased title, return the first preferred ID loaded
in `existing`. -/
def ruleScanE (existing : List (String × WInfo)) (title : String)
    (preferred : List String) : List String → Option String
  | [] => none
  | k :: rest =>
    if isSubstrB k title then
      match preferred.find? (fun pid => containsKey existing pid) with
      | some pid => some pid
      | none => ruleScanE existing title preferred rest
    else ruleScanE existing title preferred rest

/-- `PolarionExactConverter.map_requirement_to_parent` (lines 48-100). -/
def mapRequirementToParent (existing : List (String × WInfo)) (r : Requirement) : String :=
  let category := toLowerS r.category
  let title := toLowerS r.title
  let fromRule :=
    match lookupOpt mappingRulesE category with
    | some rule => ruleScanE existing title rule.2 rule.1
    | none => none
  match fromRule with
  | some pid => pid
  | none =>
    if containsKey existing "Python/FCTS-9156" then "Python/FCTS-9156"
    else
      match existing.find? (fun kv => decide (kv.2.type = "requirement")) with
      | some kv => kv.1
      | none => "Python/FCTS-9156"

/-- `PolarionExactConverter.create_workitem_exact_format` (lines 102-144); the
`parent_id` parameter is unused in the source body and kept for fidelity. -/
def createWorkitemExactFormat (ts docId : String) (r : Requirement) (parentId : String) :
    WorkItemMain :=
  let priorityVal :=
    lookupD [("Critical", "high"), ("High", "high"), ("Medium", "medium"), ("Low", "low")]
      r.priority "medium"
  let severityVal :=
    lookupD [("Safety", if r.priority = "Critical" then "safety_critical" else "must_have"),
      ("Functional", "must_have"), ("Performance", "must_have"), ("Interface", "should_have"),
      ("Environmental", "should_have"), ("Maintenance", "could_have"),
      ("Regulatory", "must_have"), ("Testing", "should_have")] r.category "must_have"
  let _ := parentId
  { type := "requirement"
    title := r.title ++ " " ++ ts
    description := ⟨"text/html", "<p>" ++ r.description ++ "</p>"⟩
    status := "draft"
    severity := severityVal
    priority := priorityVal
    moduleId := docId }

/-- `PolarionExactConverter.create_links` (lines 146-173). -/
def createLinksE (existing : List (String × WInfo)) (r : Requirement) (parentId : String) :
    List Link :=
  let base : List Link :=
    [⟨parentId, "has_parent",
      "Links to " ++ ((lookupOpt existing parentId).map WInfo.title).getD "parent requirement"⟩]
  if r.category = "Safety" then
    base ++ [⟨"Python/FCTS-9155", "relates_to", "Related to MCP Safety Goal"⟩]
  else if r.category = "Testing" then
    base ++ [⟨"Python/FCTS-9160", "verifies", "Verifies MCP Test Case"⟩]
  else base

/-- The parent/child bundle the exact converter emits:
`{"work_item": ..., "links": [...], "children": [...]}`. -/
structure ExactOutput where
  work_item : Option WorkItemMain
  links : List Link
  children : List WorkItemMain
deriving DecidableEq, Repr

/-- The requirement-extraction loops of `convert_requirements` (lines 186-195),
with the imperative `all_requirements.extend` calls rendered as folds. -/
def allRequirementsE (brake : Option Document) : List Requirement :=
  (chaptersOf brake).foldl
    (fun acc ch =>
      (ch.subchapters.getD []).foldl (fun a sub => a ++ sub.workitems.getD [])
        (acc ++ ch.workitems.getD []))
    []

/-- `PolarionExactConverter.convert_requirements` (lines 175-220); the
`categorized` grouping computed by the source (lines 197-203) is dead code that
does not influence the output and is not embedded. -/
def convertRequirementsE (ts docId : String) (existing : List (String × WInfo))
    (brake : Option Document) : ExactOutput :=
  match allRequirementsE brake with
  | [] => { work_item := none, links := [], children := [] }
  | firstReq :: rest =>
    let parentId := mapRequirementToParent existing firstReq
    { work_item := some (createWorkitemExactFormat ts docId firstReq parentId)
      links := createLinksE existing firstReq parentId
      children := rest.map
        (fun r => createWorkitemExactFormat ts docId r (mapRequirementToParent existing r)) }

/-- Claim-side flat form of the exact converter's requirement extraction:
per chapter, direct work items then each subchapter's work items. -/
def reqSeqE (brake : Option Document) : List Requirement :=
  flatSeq
    (fun ch => ch.workitems.getD []
      ++ flatSeq (fun sub => sub.workitems.getD []) (ch.subchapters.getD []))
    (chaptersOf brake)

/-! ## C5 and C6: the static lookup tables -/

/-- C5: `map_priority` is a pure total lookup (priority to value): for every
input string it returns "100.0" for "Critical", "90.0" for "High", "50.0" for
"Medium", "30.0" for "Low", and "50.0" for any other string; the archive and
no-headings converters agree. -/
theorem c5_map_priority_total_lookup :
    ∀ p : String,
      mapPriorityA p =
        (if p = "Critical" then "100.0"
         else if p = "High" then "90.0"
         else if p = "Medium" then "50.0"
         else if p = "Low" then "30.0"
         else "50.0")
      ∧ mapPriorityNH p = mapPriorityA p := by
  intro p
  exact ⟨rfl, rfl⟩

/-- C6: `map_status` is a static lookup table (category to status): for every
category string it returns "approved" for "Regulatory", "in_review" for
"Safety", and "draft" for every other category, including categories not
listed in the table; the archive and no-headings converters agree. -/
theorem c6_map_status_total_lookup :
    ∀ c : String,
      mapStatusA c =
        (if c = "Regulatory" then "approved"
         else if c = "Safety" then "in_review"
         else "draft")
      ∧ mapStatusNH c = mapStatusA c := by
  intro c
  refine ⟨?_, rfl⟩
  simp only [mapStatusA, lookupD]
  split_ifs <;> simp_all

/-! ## C2: severity is NOT a function of category alone -/

/-- A Safety requirement with Critical priority (C2 counterexample data). -/
def reqSafetyCritical : Requirement :=
  ⟨"BR-001", "Emergency stop", "Stops the car", "Safety", "Critical"⟩

/-- A Safety requirement with High priority (C2 counterexample data). -/
def reqSafetyHigh : Requirement :=
  ⟨"BR-002", "Brake warning", "Warns the driver", "Safety", "High"⟩

/-- C2 counterexample: two requirements with the same category ("Safety") but
different priorities receive different severities from the archive converter
(`map_severity`) and from the headings converter (`severity_map`), so severity
is not determined by the category alone. -/
theorem c2_counterexample :
    reqSafetyCritical.category = reqSafetyHigh.category
    ∧ (createRequirementWorkitemA reqSafetyCritical "P" "1.1").severity
        ≠ (createRequirementWorkitemA reqSafetyHigh "P" "1.1").severity
    ∧ (createWorkitemFormatH "ts" "doc" reqSafetyCritical "H" "T").work_item.severity
        ≠ (createWorkitemFormatH "ts" "doc" reqSafetyHigh "H" "T").work_item.severity := by
  refine ⟨rfl, ?_, ?_⟩ <;> decide

/-- C2 (amended): the severity of every output work item is determined from the
requirement's category and priority together: for every pair of requirements
with the same category and the same priority, the converters assign the same
severity value. -/
theorem c2_amended_severity_from_category_and_priority :
    ∀ (ts docId pid outline ptitle : String) (r1 r2 : Requirement),
      r1.category = r2.category → r1.priority = r2.priority →
      (createRequirementWorkitemA r1 pid outline).severity
          = (createRequirementWorkitemA r2 pid outline).severity
        ∧ (createWorkitemFormatH ts docId r1 pid ptitle).work_item.severity
          = (createWorkitemFormatH ts docId r2 pid ptitle).work_item.severity := by
  intro ts docId pid outline ptitle r1 r2 hc hp
  constructor
  · simp only [createRequirementWorkitemA, hc, hp]
  · simp only [createWorkitemFormatH, hc, hp]

/-- C2 witness: the amended severity claim at a concrete pair of requirements
sharing category "Functional" and priority "High". -/
theorem c2_amended_witness :
    (createRequirementWorkitemA ⟨"A", "Ta", "Da", "Functional", "High"⟩ "P" "1.1").severity
      = (createRequirementWorkitemA ⟨"B", "Tb", "Db", "Functional", "High"⟩ "P" "1.1").severity :=
  (c2_amended_severity_from_category_and_priority "ts" "doc" "P" "1.1" "T"
    ⟨"A", "Ta", "Da", "Functional", "High"⟩ ⟨"B", "Tb", "Db", "Functional", "High"⟩ rfl rfl).1

/-! ## C10: `get_heading_id` is total and never returns an empty ID -/

/-- A successful `lookupOpt` returns one of the table's values. -/
theorem lookupOpt_mem_values {β : Type} (k : String) (v : β) :
    ∀ l : List (String × β), lookupOpt l k = some v → v ∈ l.map Prod.snd := by
  intro l
  induction l with
  | nil => intro h; simp [lookupOpt] at h
  | cons p t ih =>
    intro h
    simp only [lookupOpt] at h
    split at h
    · cases h; simp
    · exact List.mem_cons_of_mem _ (ih h)

/-- A successful `firstKeyMatch` returns one of the table's values. -/
theorem firstKeyMatch_mem_values (cleaned : String) (v : String) :
    ∀ l : List (String × String), firstKeyMatch cleaned l = some v → v ∈ l.map Prod.snd := by
  intro l
  induction l with
  | nil => intro h; simp [firstKeyMatch] at h
  | cons p t ih =>
    intro h
    simp only [firstKeyMatch] at h
    split at h
    · cases h; simp
    · exact List.mem_cons_of_mem _ (ih h)

/-- `get_heading_id` only ever returns a table value or the fixed fallback. -/
theorem getHeadingId_mem (title : String) :
    getHeadingId title ∈ headingIdsNH.map Prod.snd
      ∨ getHeadingId title = "Python/FCTS-UNKNOWN" := by
  unfold getHeadingId
  cases h1 : lookupOpt headingIdsNH title with
  | some v => exact Or.inl (lookupOpt_mem_values _ _ _ h1)
  | none =>
    cases h2 : firstKeyMatch (stripOutline title) headingIdsNH with
    | some v => exact Or.inl (firstKeyMatch_mem_values _ _ _ h2)
    | none => exact Or.inr rfl

/-- C10: `get_heading_id` is total over heading titles: it returns the table's
ID on an exact title match; otherwise, if the title with its leading outline
number stripped occurs as a substring of some table key, it returns the ID of
the first such key in table order; otherwise it returns "Python/FCTS-UNKNOWN".
Consequently every requirement work item built by the no-headings converter
carries a single has_parent link whose target is `get_heading_id` of the parent
heading title, hence non-empty even for headings unknown to the table. -/
theorem c10_get_heading_id_total :
    ∀ title : String,
      (∀ v, lookupOpt headingIdsNH title = some v → getHeadingId title = v)
      ∧ (lookupOpt headingIdsNH title = none →
          ∀ v, firstKeyMatch (stripOutline title) headingIdsNH = some v →
            getHeadingId title = v)
      ∧ (lookupOpt headingIdsNH title = none →
          firstKeyMatch (stripOutline title) headingIdsNH = none →
          getHeadingId title = "Python/FCTS-UNKNOWN")
      ∧ getHeadingId title ≠ ""
      ∧ (∀ (r : Requirement) (outline : String),
          (createRequirementWorkitemNH r title outline).links
            = some [⟨getHeadingId title, "has_parent", "Links to " ++ title⟩]) := by
  intro title
  refine ⟨?_, ?_, ?_, ?_, ?_⟩
  · intro v h; unfold getHeadingId; rw [h]
  · intro h1 v h2; unfold getHeadingId; rw [h1, h2]
  · intro h1 h2; unfold getHeadingId; rw [h1, h2]
  · rcases getHeadingId_mem title with h | h
    · have hvals : ∀ v ∈ headingIdsNH.map Prod.snd, v ≠ "" := by decide
      exact hvals _ h
    · rw [h]; decide
  · intro r outline; rfl

/-- C10 witness: the three branches of `get_heading_id` at concrete titles, and
the non-emptiness of the fallback result. -/
theorem c10_witness :
    getHeadingId "3. Functional Requirements" = "Python/FCTS-FUNC"
    ∧ getHeadingId "3.9 Functional Req" = "Python/FCTS-FUNC"
    ∧ getHeadingId "Totally Unknown Heading" = "Python/FCTS-UNKNOWN"
    ∧ getHeadingId "Totally Unknown Heading" ≠ "" :=
  ⟨(c10_get_heading_id_total "3. Functional Requirements").1 _ (by decide),
   (c10_get_heading_id_total "3.9 Functional Req").2.1 (by decide) _ (by decide),
   (c10_get_heading_id_total "Totally Unknown Heading").2.2.1 (by decide) (by decide),
   (c10_get_heading_id_total "Totally Unknown Heading").2.2.2.1⟩

/-! ## C4: keyword-substring matching of headings to remote work items -/

/-- Claim-side notion for C4: the first keyword of the hardcoded table that is
a substring of the cleaned heading, together with its preferred IDs. -/
def firstSubstringKeyword (s : String) : Option (String × List String) :=
  headingMapI.find? (fun p => isSubstrB p.1 s)

/-- A loaded remote work item used by the C4 counterexample. -/
def existingI4 : List (String × WInfo) :=
  [("Python/FCTS-9175", ⟨"requirement", "MCP Performance Requirement"⟩)]

/-- C4 counterexample: for chapter heading "4. Primary Performance" (cleaned
and lowercased to "primary performance") the first keyword of the table that is
a substring is "primary", whose only preferred ID "Python/FCTS-9157" is not
loaded; the code nevertheless returns "Python/FCTS-9175" (coming from the later
matching keyword "performance"), which is neither among the first matching
keyword's preferred IDs nor the fixed fallback, contradicting the claim that
the first substring keyword performs the selection. -/
theorem c4_counterexample :
    firstSubstringKeyword (toLowerS (stripOutline "4. Primary Performance"))
        = some ("primary", ["Python/FCTS-9157"])
    ∧ matchHeadingToWorkitem existingI4 "4. Primary Performance" none = "Python/FCTS-9175"
    ∧ ("Python/FCTS-9175" ∈ ["Python/FCTS-9157"] → False)
    ∧ "Python/FCTS-9175" ≠ "Python/FCTS-9156" := by
  refine ⟨by decide, by decide, by decide, by decide⟩

/-- Claim-side (amended) keyword loop: the first keyword that is a substring of
`s` AND has at least one preferred ID loaded in `existing` selects the first
such loaded ID; keywords whose preferred IDs are all absent are skipped. -/
def matchLoopAmended (existing : List (String × WInfo)) (s : String)
    (table : List (String × List String)) : Option String :=
  (table.find? (fun p => isSubstrB p.1 s && p.2.any (fun wid => containsKey existing wid))).bind
    (fun p => p.2.find? (fun wid => containsKey existing wid))

/-- The source keyword loop agrees with the amended claim-side loop. -/
theorem matchLoopI_eq_amended (existing : List (String × WInfo)) (s : String) :
    ∀ table, matchLoopI existing s table = matchLoopAmended existing s table := by
  intro table
  induction table with
  | nil => rfl
  | cons p t ih =>
    by_cases hsub : isSubstrB p.1 s
    · cases hfind : p.2.find? (fun wid => containsKey existing wid) with
      | some wid =>
        have hany : p.2.any (fun wid => containsKey existing wid) = true := by
          rw [List.any_eq_true]
          exact ⟨wid, List.mem_of_find?_eq_some hfind, List.find?_some hfind⟩
        simp [matchLoopI, matchLoopAmended, List.find?_cons, hsub, hany, hfind]
      | none =>
        have hany : p.2.any (fun wid => containsKey existing wid) = false := by
          rw [List.any_eq_false]
          intro x hx
          exact List.find?_eq_none.mp hfind x hx
        simp [matchLoopI, matchLoopAmended, List.find?_cons, hsub, hany, hfind]
        exact ih
    · simp [matchLoopI, matchLoopAmended, List.find?_cons, hsub]
      exact ih

/-- Claim-side (amended) form of `match_heading_to_workitem`: the cleaned
subchapter heading (when non-empty) is tried before the cleaned chapter
heading with the amended loop; when neither yields a selection (in particular
whenever no keyword is a substring of either heading) the fixed fallback
"Python/FCTS-9156" is returned. -/
def matchHeadingAmended (existing : List (String × WInfo)) (chapter : String)
    (subchapter : Option String) : String :=
  let chapterClean := toLowerS (stripOutline chapter)
  let subchapterClean :=
    match subchapter with
    | some s => toLowerS (stripOutline s)
    | none => ""
  match (if subchapterClean ≠ "" then matchLoopAmended existing subchapterClean headingMapI
         else none) with
  | some wid => wid
  | none =>
    match matchLoopAmended existing chapterClean headingMapI with
    | some wid => wid
    | none => "Python/FCTS-9156"

/-- C4 (amended): the remote parent work item is guessed by keyword-substring
matching against the hardcoded table, the lowercased outline-stripped
subchapter heading tried before the chapter heading; the first keyword that is
a substring AND has at least one of its preferred work-item IDs present in the
loaded document selects the first such present ID (keywords whose preferred IDs
are all absent are skipped); when no keyword selects anything — in particular
whenever no keyword is a substring of either heading — the fixed fallback
"Python/FCTS-9156" is returned. -/
theorem c4_amended_keyword_matching :
    ∀ (existing : List (String × WInfo)) (chapter : String) (subchapter : Option String),
      matchHeadingToWorkitem existing chapter subchapter
        = matchHeadingAmended existing chapter subchapter := by
  intro existing chapter subchapter
  unfold matchHeadingToWorkitem matchHeadingAmended
  simp only [matchLoopI_eq_amended]

/-! ## C1: the traversal emits a flat ordered sequence -/

/-- The headings converter's imperative append-loops equal the claim-side flat form. -/
theorem processRequirementsH_eq_flat (ts docId : String) (brake : Option Document)
    (hmap : String → Option String) :
    processRequirementsH ts docId brake hmap = flatSpecH ts docId brake hmap := by
  unfold processRequirementsH flatSpecH
  rw [foldl_flat _ (chapterSpecH ts docId hmap) ?_ (chaptersOf brake) []]
  · rfl
  · intro acc ch
    unfold chapterSpecH
    rw [foldl_flat _
      (fun sub =>
        (sub.workitems.getD []).map
          (fun r => createWorkitemFormatH ts docId r (sub.heading_id.getD "")
            ((hmap (sub.heading_id.getD "")).getD sub.heading)))
      (fun a sub => rfl) (ch.subchapters.getD [])]
    rw [List.append_assoc]

/-- Per-chapter flat form emits exactly `chapterCount` items. -/
theorem chapterSpecH_length (ts docId : String) (hmap : String → Option String)
    (ch : Chapter) : (chapterSpecH ts docId hmap ch).length = chapterCount ch := by
  unfold chapterSpecH chapterCount
  simp [flatSeq_length]

/-- `enumF` preserves list length. -/
theorem enumF_length {α : Type} : ∀ (n : Nat) (l : List α), (enumF n l).length = l.length := by
  intro n l
  induction l generalizing n with
  | nil => rfl
  | cons x xs ih => simp [enumF, ih]

/-- Length of a `flatSeq` over an enumerated list when the piece length does
not depend on the index. -/
theorem flatSeq_enumF_length {α β : Type} (f : Nat × α → List β) (g : α → Nat)
    (h : ∀ n x, (f (n, x)).length = g x) :
    ∀ (n : Nat) (l : List α), (flatSeq f (enumF n l)).length = (l.map g).sum := by
  intro n l
  induction l generalizing n with
  | nil => rfl
  | cons x xs ih => simp [enumF, flatSeq, h, ih]

/-- The no-headings per-chapter traversal emits exactly `chapterCount` items. -/
theorem processChapterNH_length (n : Nat) (ch : Chapter) :
    (processChapterNH n ch).length = chapterCount ch := by
  unfold processChapterNH chapterCount
  rw [List.length_append, List.length_map, enumF_length,
    flatSeq_enumF_length _ (fun sub => (sub.workitems.getD []).length)
      (fun m sub => by unfold processSubchapterNH; rw [List.length_map, enumF_length])]

/-- C1: for every input document the tree traversal produces a flat ordered
sequence of output records: chapters in input order, within each chapter first
one output work item per entry of the chapter's own workitems list (in list
order), then for each subchapter in input order one output work item per entry
of that subchapter's workitems list (in list order); the length of the returned
list equals the total number of work items in the tree.  Both for the headings
converter (`process_requirements`) and the no-headings converter
(`process_chapter` under the chapter loop of `convert`). -/
theorem c1_traversal_flat_order :
    ∀ (ts docId : String) (brake : Option Document) (hmap : String → Option String)
      (cs : List Chapter),
      processRequirementsH ts docId brake hmap = flatSpecH ts docId brake hmap
      ∧ (processRequirementsH ts docId brake hmap).length = totalWorkitems (chaptersOf brake)
      ∧ workItemsNH cs = flatSeq (fun p => processChapterNH p.1 p.2) (enumF 1 cs)
      ∧ (workItemsNH cs).length = totalWorkitems cs := by
  intro ts docId brake hmap cs
  have hH := processRequirementsH_eq_flat ts docId brake hmap
  have hNH : workItemsNH cs = flatSeq (fun p => processChapterNH p.1 p.2) (enumF 1 cs) := by
    unfold workItemsNH
    rw [foldl_flat _ (fun p => processChapterNH p.1 p.2) (fun a p => rfl) (enumF 1 cs) []]
    rfl
  refine ⟨hH, ?_, hNH, ?_⟩
  · rw [hH]
    unfold flatSpecH totalWorkitems
    rw [flatSeq_length]
    simp only [chapterSpecH_length]
  · rw [hNH]
    unfold totalWorkitems
    rw [flatSeq_enumF_length _ chapterCount (fun n ch => processChapterNH_length n ch)]

/-! ## C8: every headings-converter item has exactly one has_parent link -/

/-- A requirement living in a chapter that lacks a `heading_id` key (C8 data). -/
def req8 : Requirement := ⟨"BR-101", "Pedal response", "Quick pedal", "Functional", "High"⟩

/-- A one-chapter document whose chapter has no `heading_id` key (C8 data). -/
def doc8 : Document := ⟨some [⟨"Chapter X", none, none, some [req8], none⟩]⟩

/-- C8: every emitted output item of the headings converter has exactly one
link, its role is "has_parent", and its children list is empty; and for the
concrete document `doc8`, whose chapter lacks a `heading_id` key, the emitted
item's link target is the empty string. -/
theorem c8_single_has_parent_link :
    (∀ (ts docId : String) (brake : Option Document) (hmap : String → Option String)
        (item : OutItem), item ∈ processRequirementsH ts docId brake hmap →
        (∃ l, item.links = [l] ∧ l.role = "has_parent") ∧ item.children = [])
    ∧ (processRequirementsH "T" "D" (some doc8) (fun _ => none)).map
        (fun item => item.links.map Link.target_id) = [[""]] := by
  constructor
  · intro ts docId brake hmap item hmem
    rw [processRequirementsH_eq_flat] at hmem
    unfold flatSpecH at hmem
    rw [mem_flatSeq] at hmem
    obtain ⟨ch, _, hch⟩ := hmem
    unfold chapterSpecH at hch
    rw [List.mem_append] at hch
    rcases hch with hd | hs
    · obtain ⟨r, _, rfl⟩ := List.mem_map.mp hd
      exact ⟨⟨_, rfl, rfl⟩, rfl⟩
    · rw [mem_flatSeq] at hs
      obtain ⟨sub, _, hsub⟩ := hs
      obtain ⟨r, _, rfl⟩ := List.mem_map.mp hsub
      exact ⟨⟨_, rfl, rfl⟩, rfl⟩
  · decide

/-- The single output item the headings converter emits for `doc8` (C8 witness data). -/
def item8 : OutItem := createWorkitemFormatH "T" "D" req8 "" "Chapter X"

/-- C8 witness: the link invariant instantiated at the item emitted for `doc8`. -/
theorem c8_witness :
    (∃ l, item8.links = [l] ∧ l.role = "has_parent") ∧ item8.children = [] :=
  c8_single_has_parent_link.1 "T" "D" (some doc8) (fun _ => none) item8 (by decide)

/-! ## C7: the exact converter groups everything into a single bundle -/

/-- The exact converter's extraction loops equal the claim-side flat traversal order. -/
theorem allRequirementsE_eq_seq (brake : Option Document) :
    allRequirementsE brake = reqSeqE brake := by
  unfold allRequirementsE reqSeqE
  rw [foldl_flat _
    (fun ch => ch.workitems.getD []
      ++ flatSeq (fun sub => sub.workitems.getD []) (ch.subchapters.getD []))
    ?_ (chaptersOf brake) []]
  · rfl
  · intro acc ch
    rw [foldl_flat _ (fun sub => sub.workitems.getD []) (fun a sub => rfl)
      (ch.subchapters.getD [])]
    rw [List.append_assoc]

/-- C7: the parent/child-bundle converter groups all requirements into a single
bundle: the first requirement in traversal order becomes the top-level
work_item together with its links; every remaining requirement becomes one
entry of the children list, in traversal order; and when the document contains
no requirements at all, the result has work_item null with empty links and
children lists. -/
theorem c7_exact_single_bundle :
    ∀ (ts docId : String) (existing : List (String × WInfo)) (brake : Option Document),
      allRequirementsE brake = reqSeqE brake
      ∧ (reqSeqE brake = [] →
          convertRequirementsE ts docId existing brake
            = { work_item := none, links := [], children := [] })
      ∧ (∀ (r : Requirement) (rest : List Requirement), reqSeqE brake = r :: rest →
          (convertRequirementsE ts docId existing brake).work_item
              = some (createWorkitemExactFormat ts docId r (mapRequirementToParent existing r))
            ∧ (convertRequirementsE ts docId existing brake).links
              = createLinksE existing r (mapRequirementToParent existing r)
            ∧ (convertRequirementsE ts docId existing brake).children
              = rest.map (fun q =>
                  createWorkitemExactFormat ts docId q (mapRequirementToParent existing q))) := by
  intro ts docId existing brake
  have hflat := allRequirementsE_eq_seq brake
  refine ⟨hflat, ?_, ?_⟩
  · intro hnil
    unfold convertRequirementsE
    rw [hflat, hnil]
  · intro r rest hcons
    unfold convertRequirementsE
    rw [hflat, hcons]
    exact ⟨rfl, rfl, rfl⟩

/-- First requirement of the C7 witness document. -/
def req71 : Requirement := ⟨"BR-201", "Primary braking", "d1", "Functional", "Critical"⟩

/-- Second requirement of the C7 witness document. -/
def req72 : Requirement := ⟨"BR-202", "Warning lamp", "d2", "Safety", "High"⟩

/-- C7 witness document: one chapter with one direct requirement and one
subchapter carrying another requirement. -/
def doc7 : Document :=
  ⟨some [⟨"3. Functional Requirements", none, none, some [req71],
    some [⟨"3.1 Primary", none, some [req72]⟩]⟩]⟩

/-- Loaded remote work items for the C7 witness. -/
def existing7 : List (String × WInfo) :=
  [("Python/FCTS-9156", ⟨"requirement", "MCP Framework"⟩)]

/-- C7 witness: the bundle claim instantiated on `doc7` with two requirements. -/
theorem c7_witness :
    (convertRequirementsE "T" "D" existing7 (some doc7)).work_item
        = some (createWorkitemExactFormat "T" "D" req71
            (mapRequirementToParent existing7 req71))
      ∧ (convertRequirementsE "T" "D" existing7 (some doc7)).links
        = createLinksE existing7 req71 (mapRequirementToParent existing7 req71)
      ∧ (convertRequirementsE "T" "D" existing7 (some doc7)).children
        = [req72].map (fun q =>
            createWorkitemExactFormat "T" "D" q (mapRequirementToParent existing7 q)) :=
  (c7_exact_single_bundle "T" "D" existing7 (some doc7)).2.2 req71 [req72] (by decide)

/-! ## C3: validation coverage of document keys -/

/-- Shape of inputs accepted by `validate_input`. -/
theorem validateInputA_none_iff (input : Option ArchiveDoc) :
    validateInputA input = none ↔
      ∃ doc, input = some doc ∧ doc.id.isSome ∧ doc.title.isSome ∧ doc.project.isSome
        ∧ doc.space.isSome ∧ ∃ cs, doc.chapters = some (ChaptersField.list cs) := by
  cases input with
  | none => simp [validateInputA]
  | some doc =>
    simp only [validateInputA, Option.some.injEq]
    constructor
    · intro h
      refine ⟨doc, rfl, ?_⟩
      by_cases h1 : doc.id.isNone
      · simp [h1] at h
      · by_cases h2 : doc.title.isNone
        · simp [h1, h2] at h
        · by_cases h3 : doc.project.isNone
          · simp [h1, h2, h3] at h
          · by_cases h4 : doc.space.isNone
            · simp [h1, h2, h3, h4] at h
            · rcases h5 : doc.chapters with _ | cf
              · simp [h1, h2, h3, h4, h5] at h
              · cases cf with
                | notList => simp [h1, h2, h3, h4, h5] at h
                | list cs =>
                  simp only [Option.isNone_iff_eq_none, Option.ne_none_iff_isSome] at h1 h2 h3 h4
                  exact ⟨by simpa using h1, by simpa using h2, by simpa using h3,
                    by simpa using h4, cs, rfl⟩
    · rintro ⟨doc', heq, h1, h2, h3, h4, cs, h5⟩
      obtain rfl : doc' = doc := by exact heq.symm ▸ rfl
      simp [Option.isNone_iff_eq_none, Option.isSome_iff_ne_none.mp h1,
        Option.isSome_iff_ne_none.mp h2, Option.isSome_iff_ne_none.mp h3,
        Option.isSome_iff_ne_none.mp h4, h5]

/-- C3 (amended): if the input JSON lacks the "document" key, or the document
lacks any of "id", "title", "project", "space", "chapters", or "chapters" is
not a list, the script reports the missing key and exits with status 1 without
writing an output file.  The converse coverage is amended: validation covers
every document key the conversion subsequently reads EXCEPT "version" and
"created"; a document passing validation may still fail with a missing-key
error on those two keys, and when they are also present no missing-key failure
is reachable after validation succeeds. -/
theorem c3_amended_validation_coverage :
    ∀ (ts : String) (input : Option ArchiveDoc),
      validateInputA none = some VError.missingDocument
      ∧ (∀ e, validateInputA input = some e →
          convertA ts input = Except.error (ConvErr.validation e))
      ∧ (validateInputA input = none ↔
          ∃ doc, input = some doc ∧ doc.id.isSome ∧ doc.title.isSome ∧ doc.project.isSome
            ∧ doc.space.isSome ∧ ∃ cs, doc.chapters = some (ChaptersField.list cs))
      ∧ (∀ doc, input = some doc → validateInputA input = none →
          doc.version.isSome → doc.created.isSome →
          ∃ out, convertA ts input = Except.ok out) := by
  intro ts input
  refine ⟨rfl, ?_, validateInputA_none_iff input, ?_⟩
  · intro e he
    unfold convertA
    rw [he]
  · intro doc hin hval hv hc
    subst hin
    obtain ⟨doc', heq, h1, h2, h3, h4, cs, h5⟩ := (validateInputA_none_iff _).mp hval
    obtain rfl : doc' = doc := by injection heq.symm
    obtain ⟨i, hi⟩ := Option.isSome_iff_exists.mp h1
    obtain ⟨t, ht⟩ := Option.isSome_iff_exists.mp h2
    obtain ⟨p, hp⟩ := Option.isSome_iff_exists.mp h3
    obtain ⟨s, hs⟩ := Option.isSome_iff_exists.mp h4
    obtain ⟨v, hvv⟩ := Option.isSome_iff_exists.mp hv
    obtain ⟨c, hcc⟩ := Option.isSome_iff_exists.mp hc
    clear hval heq h1 h2 h3 h4
    rcases doc' with ⟨di, dt, dp, ds, dv, dc, dch⟩
    dsimp only at hi ht hp hs hvv hcc h5
    subst hi ht hp hs hvv hcc h5
    exact ⟨_, rfl⟩

/-- A document with all validated keys present but no "version" key (C3 data). -/
def docNoVersion : ArchiveDoc :=
  ⟨some "DOC-1", some "Brake Doc", some "Proj", some "Sp", none, some "2025",
    some (ChaptersField.list [])⟩

/-- C3 counterexample: `docNoVersion` passes validation, yet the conversion
afterwards fails with a missing-key error on the document key "version" (read
by `convert` for the root heading), exiting with status 1 without writing the
output file — so not every document key the conversion reads is covered by the
validation. -/
theorem c3_counterexample :
    validateInputA (some docNoVersion) = none
    ∧ convertA "T" (some docNoVersion) = Except.error (ConvErr.keyError "version") := by
  exact ⟨rfl, rfl⟩

/-- A document carrying every key the conversion reads (C3 and C9 witness data). -/
def docFull : ArchiveDoc :=
  ⟨some "DOC-1", some "T0", some "P0", some "S0", some "V0", some "C0",
    some (ChaptersField.list [])⟩

/-- C3 witness: the amended coverage claim instantiated at `docFull`. -/
theorem c3_witness :
    ∃ out, convertA "T" (some docFull) = Except.ok out :=
  (c3_amended_validation_coverage "T" (some docFull)).2.2.2 docFull rfl (by decide)
    (by decide) (by decide)

/-! ## C9: metadata totals -/

/-- A list whose members are either requirements or headings splits exactly
into the two counts. -/
theorem count_partition (ws : List AWorkitem)
    (h : ∀ w ∈ ws, w.type = "requirement" ∨ w.type = "heading") :
    ws.countP (fun w => decide (w.type = "requirement"))
      + ws.countP (fun w => decide (w.type = "heading")) = ws.length := by
  induction ws with
  | nil => rfl
  | cons w t ih =>
    have hw := h w (List.mem_cons_self w t)
    have ht := ih (fun x hx => h x (List.mem_cons_of_mem w hx))
    rcases hw with h1 | h1 <;> simp [List.countP_cons, h1] <;> omega

/-- Members produced by a `statefulAppend` loop satisfy any property preserved
by the step function. -/
theorem statefulAppend_mem {α β : Type} (F : Nat → α → List β × Nat) (P : β → Prop)
    (hF : ∀ c x w, w ∈ (F c x).1 → P w) :
    ∀ (l : List α) (st : List β × Nat), (∀ w ∈ st.1, P w) →
      ∀ w ∈ (statefulAppend F st l).1, P w := by
  intro l
  induction l with
  | nil => intro st h w hw; exact h w hw
  | cons x xs ih =>
    intro st h w hw
    have hstep : statefulAppend F st (x :: xs)
        = statefulAppend F (st.1 ++ (F st.2 x).1, (F st.2 x).2) xs := rfl
    rw [hstep] at hw
    refine ih _ ?_ w hw
    intro v hv
    rcases List.mem_append.mp hv with hv1 | hv2
    · exact h v hv1
    · exact hF _ _ v hv2

/-- Every item emitted for a subchapter by the archive converter is a
requirement or a heading. -/
theorem processSubchapterA_types (c chN sN : Nat) (pid : String) (sub : Subchapter) :
    ∀ w ∈ (processSubchapterA c chN sN pid sub).1,
      w.type = "requirement" ∨ w.type = "heading" := by
  intro w hw
  simp only [processSubchapterA, List.mem_cons, List.mem_map] at hw
  rcases hw with rfl | ⟨p, _, rfl⟩
  · right; rfl
  · left; rfl

/-- Every item emitted for a chapter by the archive converter is a
requirement or a heading. -/
theorem processChapterA_types (c chN : Nat) (pid : Option String) (ch : Chapter) :
    ∀ w ∈ (processChapterA c chN pid ch).1,
      w.type = "requirement" ∨ w.type = "heading" := by
  intro w hw
  simp only [processChapterA, List.mem_cons, List.mem_append, List.mem_map] at hw
  rcases hw with (rfl | ⟨p, _, rfl⟩) | hw
  · right; rfl
  · left; rfl
  · exact statefulAppend_mem _ _
      (fun c2 q w hwq => processSubchapterA_types c2 chN q.1 _ q.2 w hwq)
      _ _ (by intro v hv; cases hv) w hw

/-- A successful `convertBodyA` determines the metadata fields from the work
items, and every work item is a requirement or a heading. -/
theorem convertBodyA_ok_shape (ts : String) (doc : ArchiveDoc) (out : ArchiveOutput)
    (h : convertBodyA ts doc = Except.ok out) :
    out.totalItems = out.work_items.length
    ∧ out.totalRequirements = out.work_items.countP (fun w => decide (w.type = "requirement"))
    ∧ out.totalHeadings = out.work_items.countP (fun w => decide (w.type = "heading"))
    ∧ ∀ w ∈ out.work_items, w.type = "requirement" ∨ w.type = "heading" := by
  rcases doc with ⟨di, dt, dp, ds, dv, dc, dch⟩
  rcases dt with _ | t
  · exact Except.noConfusion h
  rcases dv with _ | v
  · exact Except.noConfusion h
  rcases dc with _ | c
  · exact Except.noConfusion h
  rcases dch with _ | cf
  · exact Except.noConfusion h
  rcases cf with cs | _
  case notList => exact Except.noConfusion h
  rcases dp with _ | p
  · exact Except.noConfusion h
  rcases ds with _ | s
  · exact Except.noConfusion h
  injection h with hout
  subst hout
  refine ⟨rfl, rfl, rfl, ?_⟩
  intro w hw
  rcases List.mem_cons.mp hw with rfl | hw2
  · right; rfl
  · exact statefulAppend_mem _ _
      (fun c2 p w hwp => processChapterA_types c2 (p.1 + 1) _ p.2 w hwp)
      _ _ (by intro u hu; cases hu) w hw2

/-- A successful `convertA` comes from a successful `convertBodyA`. -/
theorem convertA_ok_body (ts : String) (input : Option ArchiveDoc) (out : ArchiveOutput)
    (h : convertA ts input = Except.ok out) :
    ∃ doc, input = some doc ∧ convertBodyA ts doc = Except.ok out := by
  unfold convertA at h
  split at h
  · cases h
  · split at h
    · cases h
    · split at h
      · exact ⟨_, rfl, by rw [‹convertBodyA ts _ = Except.ok _›]; cases h; rfl⟩
      · cases h

/-- C9: in every converter's output, metadata.total_items equals the length of
the work_items list (headings converter `run`, archive converter `convert`,
individual converter `run`); in the synthetic-headings (archive) converter,
metadata.total_items additionally equals metadata.total_requirements plus
metadata.total_headings, because every generated item has type "requirement"
or type "heading". -/
theorem c9_metadata_totals :
    (∀ (ts docId : String) (brake : Option Document) (hmap : String → Option String),
        (runOutputH ts docId brake hmap).totalItems
          = (runOutputH ts docId brake hmap).work_items.length)
    ∧ (∀ (ts : String) (input : Option ArchiveDoc) (out : ArchiveOutput),
        convertA ts input = Except.ok out →
          out.totalItems = out.work_items.length
          ∧ out.totalItems = out.totalRequirements + out.totalHeadings)
    ∧ (∀ (ts docId : String) (existing : List (String × WInfo)) (brake : Option Document),
        (runOutputI ts docId existing brake).totalItems
          = (runOutputI ts docId existing brake).work_items.length) := by
  refine ⟨fun ts docId brake hmap => rfl, ?_, fun ts docId existing brake => rfl⟩
  intro ts input out h
  obtain ⟨doc, _, hbody⟩ := convertA_ok_body ts input out h
  obtain ⟨h1, h2, h3, h4⟩ := convertBodyA_ok_shape ts doc out hbody
  refine ⟨h1, ?_⟩
  rw [h1, h2, h3, count_partition _ h4]

/-- The single (root-heading) work item of the archive output on `docFull` (C9 witness data). -/
def rootSmall : AWorkitem :=
  { id := "Python/BR-HEAD-1001"
    type := "heading"
    title := "T0"
    description := ⟨"text/html", "<h1>T0</h1><p>Version: V0</p><p>Created: C0</p>"⟩
    status := "approved"
    severity := none
    priority := "100.0"
    categories := none
    custom_fields := none
    moduleId := archiveDocumentId
    outlineNumber := some "1"
    links := none }

/-- The archive converter's output on `docFull` (C9 witness data). -/
def outSmall : ArchiveOutput :=
  { docId := archiveDocumentId
    docTitle := "T0"
    docType := "Functional Concept"
    docProject := "P0"
    docSpace := "S0"
    docVersion := "V0"
    docCreated := "T"
    work_items := [rootSmall]
    totalItems := 1
    totalRequirements := 0
    totalHeadings := 1
    conversionTimestamp := "T" }

/-- C9 witness: the archive metadata claim instantiated at `docFull`. -/
theorem c9_witness :
    convertA "T" (some docFull) = Except.ok outSmall
    ∧ outSmall.totalItems = outSmall.totalRequirements + outSmall.totalHeadings :=
  ⟨by rfl, (c9_metadata_totals.2.1 "T" (some docFull) outSmall (by rfl)).2⟩
